import Mathlib

/-!
Verification of the TAXII client repository (taxii_client.py, app.py).

The embedding below translates the ingestion/normalization core of the
repository into Lean: the collection resolver
(`TAXIIClient._get_collection_id_by_title`), the paginated indicator
fetcher (`TAXIIClient.get_indicators`), the per-object normalizer (the
record built at taxii_client.py lines 166-177), the feed-refresh
orchestrator (`app.refresh_feeds`) and the feed-deletion handler
(`app.delete_feed`).

Network effects are made explicit: each model function takes the
sequence of server responses it would observe as an argument.  Python
exception flow is made explicit as well: a caught exception becomes the
corresponding early-exit value of the model.
-/

/-- Models a Python `datetime` value: the six calendar components used by
`strftime` with format string `%Y-%m-%d %H:%M:%S`. -/
structure PyDateTime where
  year : Nat
  month : Nat
  day : Nat
  hour : Nat
  minute : Nat
  second : Nat
deriving DecidableEq, Repr

/-- Validity bounds of a Python `datetime` whose year has four digits
(Python datetimes satisfy `1 <= year <= 9999`; STIX timestamps use
four-digit years, so we restrict to `1000 <= year`). -/
def PyDateTime.Valid (d : PyDateTime) : Prop :=
  1000 ≤ d.year ∧ d.year ≤ 9999 ∧
  1 ≤ d.month ∧ d.month ≤ 12 ∧
  1 ≤ d.day ∧ d.day ≤ 31 ∧
  d.hour ≤ 23 ∧ d.minute ≤ 59 ∧ d.second ≤ 59

/-- Zero-padded two-digit decimal rendering (the `%m`, `%d`, `%H`, `%M`,
`%S` directives of `strftime` for their in-range arguments). -/
def pad2 (n : Nat) : List Char :=
  [Nat.digitChar (n / 10 % 10), Nat.digitChar (n % 10)]

/-- Four-digit decimal rendering (the `%Y` directive of `strftime` for
four-digit years). -/
def pad4 (n : Nat) : List Char :=
  [Nat.digitChar (n / 1000 % 10), Nat.digitChar (n / 100 % 10),
   Nat.digitChar (n / 10 % 10), Nat.digitChar (n % 10)]

/-- Models `dt.strftime("%Y-%m-%d %H:%M:%S")` as used at
taxii_client.py lines 172-175 and 273-276. -/
def strftimeYmdHMS (d : PyDateTime) : String :=
  String.mk (pad4 d.year ++ '-' :: pad2 d.month ++ '-' :: pad2 d.day ++
             ' ' :: pad2 d.hour ++ ':' :: pad2 d.minute ++ ':' :: pad2 d.second)

/-- Decides whether a string has the exact shape `YYYY-MM-DD HH:MM:SS`:
nineteen characters, digits in the date/time positions and the fixed
separators in between. -/
def isTimestampFormat (s : String) : Bool :=
  match s.data with
  | [y1, y2, y3, y4, a, m1, m2, b, d1, d2, c, h1, h2, e, n1, n2, f, s1, s2] =>
    y1.isDigit && y2.isDigit && y3.isDigit && y4.isDigit && (a == '-') &&
    m1.isDigit && m2.isDigit && (b == '-') && d1.isDigit && d2.isDigit &&
    (c == ' ') && h1.isDigit && h2.isDigit && (e == ':') &&
    n1.isDigit && n2.isDigit && (f == ':') && s1.isDigit && s2.isDigit
  | _ => false

/-- Models a parsed STIX domain object as `stix2.parse` returns it: `id`
and `type` are always present on a parsed object; the remaining
attributes are optional (`none` models both an absent attribute, where
Python's `hasattr` is false, and a null/falsy one). -/
structure StixObj where
  type : String
  id : String
  pattern : Option String
  value : Option String
  description : Option String
  valid_from : Option PyDateTime
  last_seen : Option PyDateTime
  created : Option PyDateTime
  modified : Option PyDateTime
deriving DecidableEq, Repr

/-- Models the flat indicator record built by the fetcher
(taxii_client.py lines 166-177).  `feed_source` is absent (`none`) until
`refresh_feeds` attaches the feed display name (app.py line 255). -/
structure SimpleIndicator where
  id : String
  type : String
  value : Option String
  description : String
  first_seen : String
  last_seen : String
  created : String
  modified : String
  source : String
  feed_source : Option String
deriving DecidableEq, Repr

/-- Models the record construction at taxii_client.py lines 160-177:
`value` is the `pattern` attribute unless a legacy `value` attribute is
present; each timestamp renders via `strftime` when present and non-null
and otherwise falls back to `"N/A"` (first/last seen) or `""`
(created/modified); `source` is the configured collection title. -/
def normalizeIndicator (source : String) (o : StixObj) : SimpleIndicator :=
  { id := o.id
    type := o.type
    value := match o.value with
             | some v => some v
             | none => o.pattern
    description := o.description.getD ""
    first_seen := match o.valid_from with
                  | some d => strftimeYmdHMS d
                  | none => "N/A"
    last_seen := match o.last_seen with
                 | some d => strftimeYmdHMS d
                 | none => "N/A"
    created := match o.created with
               | some d => strftimeYmdHMS d
               | none => ""
    modified := match o.modified with
                | some d => strftimeYmdHMS d
                | none => ""
    source := source
    feed_source := none }

/-- Models one element of the envelope's `objects` JSON array, together
with the outcome of handing it to `stix2.parse` (taxii_client.py line
147): a JSON array element (`arr`, on which `parse` raises), a JSON
object parsed as a non-bundle STIX object (`obj`), a JSON object parsed
as a STIX Bundle with the listed contents (`bundle`), or a value
`stix2.parse` rejects (`malformed`). -/
inductive PageElem
  | arr (xs : List PageElem)
  | obj (o : StixObj)
  | bundle (objs : List StixObj)
  | malformed

/-- Tests for the JSON-array constructor (Python `isinstance(x, list)`). -/
def PageElem.isArr : PageElem → Bool
  | .arr _ => true
  | _ => false

/-- Models the double-nesting unwrap at taxii_client.py lines 131-134:
when the `objects` sequence is nonempty and its first element is itself
a list, the whole sequence is replaced by that first element. -/
def unwrapObjects : List PageElem → List PageElem
  | PageElem.arr xs :: _ => xs
  | l => l

/-- Models the mutable `simple_indicators` buffer: `none` is Python
`None` (the default argument), `some l` is a caller-supplied list with
contents `l`. -/
abbrev Buffer := Option (List SimpleIndicator)

/-- Models the append loop at taxii_client.py lines 160-177 for one
item's surviving indicators: when the buffer is a list, every normalized
record is appended; when the buffer is `None`, the first append raises
`AttributeError`, which the per-item handler at lines 179-181 swallows,
leaving the buffer as it was. -/
def appendIndicators (source : String) (buf : Buffer) (inds : List StixObj) : Buffer :=
  match buf with
  | none => none
  | some l => some (l ++ inds.map (normalizeIndicator source))

/-- Models the per-item body at taxii_client.py lines 144-181: a JSON
array or unparseable value makes `stix2.parse` raise and the item is
skipped; a parsed Bundle is filtered for objects of type `indicator`; a
parsed non-bundle object counts as a singleton when its own type is
`indicator` and contributes nothing otherwise. -/
def processElem (source : String) (buf : Buffer) : PageElem → Buffer
  | .arr _ => buf
  | .malformed => buf
  | .obj o => appendIndicators source buf (if o.type == "indicator" then [o] else [])
  | .bundle objs => appendIndicators source buf (objs.filter (fun x => x.type == "indicator"))

/-- Models the `for item in stix_bundles_or_objects` loop over one
page's unwrapped objects. -/
def processItems (source : String) (buf : Buffer) (items : List PageElem) : Buffer :=
  items.foldl (processElem source) buf

/-- Models one response of the objects endpoint: a decoded envelope with
its `more` flag and `objects` array, a request-level failure
(`requests` exception, including a raised HTTP status), or a body that
is not decodable as JSON. -/
inductive PageResponse
  | ok (more : Bool) (objects : List PageElem)
  | requestError
  | badJson

/-- Models the pagination loop at taxii_client.py lines 118-206.  The
list argument holds the server's responses to the successive page
requests, in order; a request past the end of the list behaves as a
request-level failure.  The result is the final value of the `page`
counter paired with the final state of the `simple_indicators` buffer.
A request or decode failure stops pagination (`more = False`); an empty
unwrapped `objects` sequence stops pagination regardless of the
envelope's flag; otherwise the page's items are processed and the loop
continues, incrementing `page`, exactly when the flag is true. -/
def fetchLoop (source : String) (page : Nat) (buf : Buffer) :
    List PageResponse → Nat × Buffer
  | [] => (page, buf)
  | PageResponse.requestError :: _ => (page, buf)
  | PageResponse.badJson :: _ => (page, buf)
  | PageResponse.ok more objects :: rest =>
    let objs := unwrapObjects objects
    if objs.isEmpty then (page, buf)
    else
      let buf2 := processItems source buf objs
      if more then fetchLoop source (page + 1) buf2 rest
      else (page, buf2)

/-- Models one collection descriptor of the collection-listing response;
`title` and `id` are read with `.get`, so either may be absent. -/
structure CollectionDesc where
  title : Option String
  id : Option String
deriving DecidableEq, Repr

/-- Models the response to `GET {api_root}/collections/`: a request or
HTTP-status failure, an undecodable body, a decoded body that is not a
list, or the list of descriptors. -/
inductive ListingResponse
  | requestError
  | badJson
  | nonList
  | listing (cols : List CollectionDesc)

/-- Models the search loop at taxii_client.py lines 36-38: return the
`id` of the first descriptor whose `title` equals the requested title
(the returned `id` itself may be absent). -/
def findCollectionId (title : String) : List CollectionDesc → Option String
  | [] => none
  | c :: rest => if c.title = some title then c.id else findCollectionId title rest

/-- Models Python truthiness testing of an optional string (`if not x`):
false exactly for a present, nonempty string. -/
def pyFalsy : Option String → Bool
  | none => true
  | some s => s.isEmpty

/-- Models `TAXIIClient._get_collection_id_by_title` (taxii_client.py
lines 21-58): `None` when the API root URL is unconfigured, on a request
or HTTP-status failure, on an undecodable body, on a non-list body, or
when the descriptor search does not produce an id. -/
def resolveCollectionId (api_root_url : Option String) (resp : ListingResponse)
    (title : String) : Option String :=
  if pyFalsy api_root_url then none
  else
    match resp with
    | .requestError => none
    | .badJson => none
    | .nonList => none
    | .listing cols => findCollectionId title cols

/-- Models `TAXIIClient.get_indicators` (taxii_client.py lines 100-210).
Arguments: the configured API root URL and collection title, the
collection-listing response, the objects-endpoint responses, and the
`simple_indicators` argument (`none` models the default `None`).  The
result pairs the final state of the `simple_indicators` buffer with the
function's return value, which is the separate `all_simple_indicators`
accumulator: that accumulator is created empty at line 112, never
appended to, and returned at line 210. -/
def get_indicators (api_root_url : Option String) (collection_title : String)
    (listing : ListingResponse) (pages : List PageResponse)
    (simple_indicators : Buffer) : Buffer × List SimpleIndicator :=
  if pyFalsy api_root_url || collection_title.isEmpty then (simple_indicators, [])
  else
    let collection_id := resolveCollectionId api_root_url listing collection_title
    if pyFalsy collection_id then (simple_indicators, [])
    else
      let all_simple_indicators : List SimpleIndicator := []
      let res := fetchLoop collection_title 1 simple_indicators pages
      (res.2, all_simple_indicators)

/-- Models one persisted feed record as `add_feed` creates it (app.py
lines 202-209): `name`, `url` and `collection` are always present. -/
structure Feed where
  name : String
  url : String
  collection : String
  username : Option String
  password : Option String
  added : String
deriving DecidableEq, Repr

/-- Models `app.delete_feed` (app.py lines 219-229): remove the entry at
the given positional index when it is in range, otherwise leave the list
unchanged. -/
def delete_feed (feeds : List Feed) (feed_id : Nat) : List Feed :=
  if feed_id < feeds.length then feeds.eraseIdx feed_id else feeds

/-- Pairs a configured feed with the server behavior it would observe
during a refresh: the collection-listing response and the
objects-endpoint responses. -/
structure FeedSpec where
  feed : Feed
  listing : ListingResponse
  pages : List PageResponse

/-- Summary of a refresh: the list written to the indicator store, the
`count` of the JSON response, and the accumulated per-feed error
messages. -/
structure RefreshSummary where
  store : List SimpleIndicator
  count : Nat
  errors : List String
deriving Repr

/-- Models `app.refresh_feeds` (app.py lines 232-270): each feed's
client is constructed and `get_indicators()` is called with its default
argument; the returned records get `feed_source` set to the feed name
and are concatenated.  The per-feed `except` handler can only fire on a
feed record lacking a `url` or `collection` key; every `Feed` value of
this model carries both (as `add_feed` guarantees), so the error list
stays empty.  The store is overwritten with the concatenation and the
reported count is its length. -/
def refresh_feeds (specs : List FeedSpec) : RefreshSummary :=
  let folded := specs.foldl
    (fun (acc : List SimpleIndicator × Nat) spec =>
      let indicators :=
        (get_indicators (some spec.feed.url) spec.feed.collection
          spec.listing spec.pages none).2
      let tagged := indicators.map (fun r => { r with feed_source := some spec.feed.name })
      (acc.1 ++ tagged, acc.2 + tagged.length))
    ([], 0)
  ⟨folded.1, folded.1.length, []⟩

/-! Helper lemmas. -/

/-- The descriptor search equals the id of the first title match, read off
with `List.find?`. -/
lemma findCollectionId_eq_find (t : String) (cols : List CollectionDesc) :
    findCollectionId t cols =
      (cols.find? (fun c => c.title == some t)).bind CollectionDesc.id := by
  induction cols with
  | nil => rfl
  | cons c rest ih =>
    by_cases h : c.title = some t
    · rw [findCollectionId, if_pos h, List.find?_cons_of_pos _ (by simp [h])]
      simp
    · rw [findCollectionId, if_neg h, List.find?_cons_of_neg _ (by simp [h]), ih]

/-- Claim C10: deleting the feed at index 1 from a three-feed list keeps
exactly the entries that were at indices 0 and 2, in that order. -/
theorem delete_feed_middle_of_three (a b c : Feed) :
    delete_feed [a, b, c] 1 = [a, c] := rfl

/-- Claim C5: the resolver returns the id of the first descriptor whose
title exactly equals the requested title; any later descriptors,
duplicate titles included, are ignored. -/
theorem resolve_first_title_match (u t : String) (pre post : List CollectionDesc)
    (c : CollectionDesc) (hu : pyFalsy (some u) = false)
    (h1 : ∀ d ∈ pre, d.title ≠ some t) (h2 : c.title = some t) :
    resolveCollectionId (some u) (ListingResponse.listing (pre ++ c :: post)) t = c.id := by
  rw [resolveCollectionId, if_neg (by simp [hu])]
  induction pre with
  | nil => rw [List.nil_append, findCollectionId, if_pos h2]
  | cons d rest ih =>
    rw [List.cons_append, findCollectionId, if_neg (h1 d (by simp))]
    exact ih (fun d hd => h1 d (by simp [hd]))

/-- Witness for claim C5 with a duplicated title: the second descriptor
is the first match and its id wins over the third descriptor's. -/
theorem resolve_first_title_match_witness :
    resolveCollectionId (some "http://server/api")
      (ListingResponse.listing
        [⟨some "Beta", some "id-0"⟩, ⟨some "Alpha", some "id-1"⟩,
         ⟨some "Alpha", some "id-2"⟩]) "Alpha" = some "id-1" :=
  resolve_first_title_match "http://server/api" "Alpha"
    [⟨some "Beta", some "id-0"⟩] [⟨some "Alpha", some "id-2"⟩]
    ⟨some "Alpha", some "id-1"⟩ rfl (by decide) rfl

/-- Counterexample to claim C6 as stated: a parseable, list-shaped,
nonempty listing in which a descriptor's title matches the request, yet
the resolver still signals not-found, because that first matching
descriptor carries no id. -/
theorem resolve_not_found_beyond_listed_cases :
    resolveCollectionId (some "http://server/api")
      (ListingResponse.listing [⟨some "Alpha", none⟩]) "Alpha" = none ∧
    ([(⟨some "Alpha", none⟩ : CollectionDesc)] ≠ ([] : List CollectionDesc)) ∧
    (⟨some "Alpha", none⟩ : CollectionDesc).title = some "Alpha" := by
  refine ⟨rfl, by simp, rfl⟩

/-- Claim C6 as amended: with the API root configured, the resolver
signals not-found exactly when the request or HTTP status failed, the
body was undecodable, the body was not a sequence, no descriptor's title
matches (which subsumes the empty listing), or the first title-matching
descriptor has no id. -/
theorem resolve_not_found_iff (u t : String) (resp : ListingResponse)
    (hu : pyFalsy (some u) = false) :
    resolveCollectionId (some u) resp t = none ↔
      (resp = ListingResponse.requestError ∨ resp = ListingResponse.badJson ∨
       resp = ListingResponse.nonList ∨
       ∃ cols, resp = ListingResponse.listing cols ∧
         ((∀ c ∈ cols, c.title ≠ some t) ∨
          ∃ c, cols.find? (fun c => c.title == some t) = some c ∧ c.id = none)) := by
  cases resp with
  | requestError => simp [resolveCollectionId, hu]
  | badJson => simp [resolveCollectionId, hu]
  | nonList => simp [resolveCollectionId, hu]
  | listing cols =>
    rw [resolveCollectionId, if_neg (by simp [hu]), findCollectionId_eq_find]
    cases hf : cols.find? (fun c => c.title == some t) with
    | none =>
      have hall : ∀ c ∈ cols, c.title ≠ some t := by
        intro c hc
        simpa using List.find?_eq_none.mp hf c hc
      simp only [hf, Option.none_bind, true_iff]
      exact Or.inr (Or.inr (Or.inr ⟨cols, rfl, Or.inl hall⟩))
    | some c =>
      have hmem : c ∈ cols := List.mem_of_find?_eq_some hf
      have hp : c.title = some t := by simpa using List.find?_some hf
      simp only [Option.some_bind]
      constructor
      · intro hid
        exact Or.inr (Or.inr (Or.inr ⟨cols, rfl, Or.inr ⟨c, hf, hid⟩⟩))
      · rintro (h | h | h | ⟨cols2, hc2, hall | ⟨c2, hfind2, hid2⟩⟩)
        · cases h
        · cases h
        · cases h
        · cases hc2
          exact absurd hp (hall c hmem)
        · cases hc2
          rw [hf] at hfind2
          cases hfind2
          exact hid2

/-- Witness for claim C6 as amended: an empty listing resolves to
not-found through the no-match disjunct. -/
theorem resolve_not_found_iff_witness :
    resolveCollectionId (some "http://server/api")
      (ListingResponse.listing []) "Alpha" = none :=
  (resolve_not_found_iff "http://server/api" "Alpha"
      (ListingResponse.listing []) rfl).mpr
    (Or.inr (Or.inr (Or.inr ⟨[], rfl, Or.inl (by simp)⟩)))

/-- Processing any element leaves a `None` buffer as `None`: every
append either does not happen or raises and is swallowed. -/
lemma processElem_none (s : String) (e : PageElem) :
    processElem s none e = none := by
  cases e <;> rfl

/-- A whole page of items leaves a `None` buffer as `None`. -/
lemma processItems_none (s : String) (items : List PageElem) :
    processItems s none items = none := by
  induction items with
  | nil => rfl
  | cons e rest ih =>
    simpa [processItems, processElem_none] using ih

/-- Pagination never turns a `None` buffer into a list. -/
lemma fetchLoop_buf_none (s : String) :
    ∀ (rs : List PageResponse) (p : Nat), (fetchLoop s p none rs).2 = none
  | [], _ => rfl
  | PageResponse.requestError :: _, _ => rfl
  | PageResponse.badJson :: _, _ => rfl
  | PageResponse.ok more objects :: rest, p => by
    rw [fetchLoop]
    by_cases h : (unwrapObjects objects).isEmpty
    · simp [h]
    · simp only [h, if_false, processItems_none]
      cases more
      · simp
      · simpa using fetchLoop_buf_none s rest (p + 1)

/-- Claim C2: with the default `None` argument, `get_indicators` returns
the empty list for every configuration and every server behavior, and
the buffer parameter stays `None` throughout: the returned accumulator
`all_simple_indicators` is never appended to, while each append targets
the `None`-defaulted `simple_indicators` and the resulting
`AttributeError` is swallowed by the per-item skip handler. -/
theorem get_indicators_default_returns_empty (api_root_url : Option String)
    (collection_title : String) (listing : ListingResponse)
    (pages : List PageResponse) :
    get_indicators api_root_url collection_title listing pages none = (none, []) := by
  rw [get_indicators]
  by_cases h1 : pyFalsy api_root_url || collection_title.isEmpty
  · simp [h1]
  · simp only [h1, if_false, Bool.false_eq_true]
    by_cases h2 : pyFalsy (resolveCollectionId api_root_url listing collection_title)
    · simp [h2]
    · simp [h2, fetchLoop_buf_none]

/-- Sample timestamp used by the concrete scenarios below. -/
def sampleDate : PyDateTime := ⟨2024, 5, 17, 10, 30, 0⟩

/-- Sample parseable STIX indicator object. -/
def sampleIndicator : StixObj :=
  ⟨"indicator", "indicator--0001", some "[ipv4-addr:value = 198.51.100.1]",
   none, some "demo indicator 1", some sampleDate, none, some sampleDate, some sampleDate⟩

/-- Second sample indicator. -/
def sampleIndicator2 : StixObj :=
  ⟨"indicator", "indicator--0002", some "[ipv4-addr:value = 198.51.100.2]",
   none, some "demo indicator 2", some sampleDate, none, some sampleDate, some sampleDate⟩

/-- Third sample indicator. -/
def sampleIndicator3 : StixObj :=
  ⟨"indicator", "indicator--0003", some "[ipv4-addr:value = 198.51.100.3]",
   none, some "demo indicator 3", some sampleDate, none, some sampleDate, some sampleDate⟩

/-- Listing of feed A's server: one collection titled `ColA`. -/
def listingA : ListingResponse :=
  ListingResponse.listing [⟨some "ColA", some "col-1"⟩]

/-- Claim C1 at its failing input: one page with `more = false` holding
one parseable STIX indicator object, fetched with the default `None`
argument.  The fetch returns zero records instead of one, even though
the very same item appended to a working list buffer yields its
normalized record. -/
theorem get_indicators_single_page_loses_records :
    get_indicators (some "http://server-a/api") "ColA" listingA
      [PageResponse.ok false [PageElem.obj sampleIndicator]] none = (none, []) ∧
    processElem "ColA" (some []) (PageElem.obj sampleIndicator) =
      some [normalizeIndicator "ColA" sampleIndicator] :=
  ⟨rfl, rfl⟩

/-- Feed A of the refresh scenario. -/
def feedA : Feed := ⟨"A", "http://server-a/api", "ColA", none, none, "2024-01-01 00:00:00"⟩

/-- Feed B of the refresh scenario. -/
def feedB : Feed := ⟨"B", "http://server-b/api", "ColB", none, none, "2024-01-01 00:00:00"⟩

/-- Feed A's server succeeds: its single page carries three parseable
indicator objects and reports `more = false`. -/
def specA : FeedSpec :=
  ⟨feedA, listingA,
   [PageResponse.ok false
     [PageElem.obj sampleIndicator, PageElem.obj sampleIndicator2,
      PageElem.obj sampleIndicator3]]⟩

/-- Feed B's server suffers a network failure already at the
collection-listing request. -/
def specB : FeedSpec := ⟨feedB, ListingResponse.requestError, []⟩

/-- Claim C3 at its failing input: refreshing feeds A (three indicators)
and B (network failure) persists an empty store, reports count 0 and
records no error at all. -/
theorem refresh_two_feeds_result :
    refresh_feeds [specA, specB] = ⟨[], 0, []⟩ :=
  rfl

/-- The final page counter exceeds the starting one by at most the
number of server responses: each response is consumed at most once and
the counter moves by one per continued page. -/
lemma fetchLoop_page_le (s : String) :
    ∀ (rs : List PageResponse) (p : Nat) (buf : Buffer),
      (fetchLoop s p buf rs).1 ≤ p + rs.length
  | [], p, buf => by simp [fetchLoop]
  | PageResponse.requestError :: rest, p, buf => by simp [fetchLoop]
  | PageResponse.badJson :: rest, p, buf => by simp [fetchLoop]
  | PageResponse.ok more objects :: rest, p, buf => by
    rw [fetchLoop]
    cases h : (unwrapObjects objects).isEmpty
    · cases more
      · simp [h]
      · simp only [h, Bool.false_eq_true, if_false, if_true]
        have := fetchLoop_page_le s rest (p + 1)
          (processItems s buf (unwrapObjects objects))
        refine le_trans this (by simp; omega)
    · simp [h]

/-- Claim C4: a page whose unwrapped objects sequence is empty stops
pagination at once, whatever the `more` flag says; a nonempty page with
`more = false` stops after processing its items; a nonempty page with
`more = true` continues with the page counter incremented by exactly
one; and over any finite response sequence the page counter stays
bounded, so pagination terminates. -/
theorem pagination_steps (s : String) (p : Nat) (buf : Buffer) (more : Bool)
    (objects : List PageElem) (rest : List PageResponse) :
    ((unwrapObjects objects).isEmpty = true →
      fetchLoop s p buf (PageResponse.ok more objects :: rest) = (p, buf)) ∧
    ((unwrapObjects objects).isEmpty = false → more = false →
      fetchLoop s p buf (PageResponse.ok more objects :: rest) =
        (p, processItems s buf (unwrapObjects objects))) ∧
    ((unwrapObjects objects).isEmpty = false → more = true →
      fetchLoop s p buf (PageResponse.ok more objects :: rest) =
        fetchLoop s (p + 1) (processItems s buf (unwrapObjects objects)) rest) ∧
    (∀ rs : List PageResponse, (fetchLoop s p buf rs).1 ≤ p + rs.length) := by
  refine ⟨?_, ?_, ?_, fun rs => fetchLoop_page_le s rs p buf⟩
  · intro h
    rw [fetchLoop]
    simp [h]
  · intro h hm
    subst hm
    rw [fetchLoop]
    simp [h]
  · intro h hm
    subst hm
    rw [fetchLoop]
    simp [h]

/-- Witness for claim C4: an empty-objects page with `more = true` stops
at page 1; a nonempty final page stops after processing; a nonempty
continuing page recurses at page 2; the counter bound holds for the
empty response sequence. -/
theorem pagination_steps_witness :
    fetchLoop "ColA" 1 none [PageResponse.ok true []] = (1, none) ∧
    fetchLoop "ColA" 1 (some []) [PageResponse.ok false [PageElem.obj sampleIndicator]] =
      (1, processItems "ColA" (some []) (unwrapObjects [PageElem.obj sampleIndicator])) ∧
    fetchLoop "ColA" 1 (some [])
        [PageResponse.ok true [PageElem.obj sampleIndicator], PageResponse.requestError] =
      fetchLoop "ColA" 2
        (processItems "ColA" (some []) (unwrapObjects [PageElem.obj sampleIndicator]))
        [PageResponse.requestError] ∧
    (fetchLoop "ColA" 1 none []).1 ≤ 1 + ([] : List PageResponse).length :=
  ⟨(pagination_steps "ColA" 1 none true [] []).1 rfl,
   (pagination_steps "ColA" 1 (some []) false [PageElem.obj sampleIndicator] []).2.1 rfl rfl,
   (pagination_steps "ColA" 1 (some []) true [PageElem.obj sampleIndicator]
      [PageResponse.requestError]).2.2.1 rfl rfl,
   (pagination_steps "ColA" 1 none true [] []).2.2.2 []⟩

/-- The unwrap step is the identity on an objects sequence whose head is
not itself a list. -/
lemma unwrapObjects_of_no_arr (l : List PageElem) (h : ∀ x ∈ l, x.isArr = false) :
    unwrapObjects l = l := by
  cases l with
  | nil => rfl
  | cons x xs =>
    cases x with
    | arr ys => simpa [PageElem.isArr] using h (PageElem.arr ys) (by simp)
    | obj o => rfl
    | bundle os => rfl
    | malformed => rfl

/-- Claim C7: for the same logical content, a page whose objects field
is the double-nested shape `[[item, ...]]` and a page whose objects
field is the flat shape `[item, ...]` are processed identically by the
fetcher, buffer and pagination alike. -/
theorem nested_flat_pages_equivalent (s : String) (p : Nat) (buf : Buffer)
    (more : Bool) (rest : List PageResponse) (l : List PageElem)
    (h : ∀ x ∈ l, x.isArr = false) :
    fetchLoop s p buf (PageResponse.ok more [PageElem.arr l] :: rest) =
      fetchLoop s p buf (PageResponse.ok more l :: rest) := by
  rw [fetchLoop, fetchLoop, unwrapObjects_of_no_arr l h]
  rfl

/-- Witness for claim C7: a double-nested single-indicator page and its
flat counterpart produce the same fetch outcome. -/
theorem nested_flat_pages_equivalent_witness :
    fetchLoop "ColA" 1 (some [])
        [PageResponse.ok false [PageElem.arr [PageElem.obj sampleIndicator]]] =
      fetchLoop "ColA" 1 (some [])
        [PageResponse.ok false [PageElem.obj sampleIndicator]] :=
  nested_flat_pages_equivalent "ColA" 1 (some []) false [] [PageElem.obj sampleIndicator]
    (by
      intro x hx
      rw [List.mem_singleton] at hx
      subst hx
      rfl)

/-- A decimal digit character is a digit. -/
lemma digitChar_mod_isDigit (n : Nat) : (Nat.digitChar (n % 10)).isDigit = true := by
  have hall : ∀ m, m < 10 → (Nat.digitChar m).isDigit = true := by decide
  exact hall _ (Nat.mod_lt _ (by decide))

/-- The rendered timestamp always has the exact `YYYY-MM-DD HH:MM:SS`
shape. -/
lemma isTimestampFormat_strftime (d : PyDateTime) :
    isTimestampFormat (strftimeYmdHMS d) = true := by
  simp only [strftimeYmdHMS, pad4, pad2, List.cons_append, List.nil_append]
  simp [isTimestampFormat, digitChar_mod_isDigit]

/-- Claim C8: the normalizer renders `first_seen` as the literal `N/A`
when `valid_from` is absent or null and in the exact
`YYYY-MM-DD HH:MM:SS` shape when it is present; `created` and
`modified` render in that same shape when present but fall back to the
empty string, not `N/A`, when absent. -/
theorem normalizer_timestamp_fields (s : String) (o : StixObj) :
    (o.valid_from = none → (normalizeIndicator s o).first_seen = "N/A") ∧
    (∀ d, o.valid_from = some d → d.Valid →
      isTimestampFormat (normalizeIndicator s o).first_seen = true) ∧
    (o.created = none → (normalizeIndicator s o).created = "") ∧
    (∀ d, o.created = some d → d.Valid →
      isTimestampFormat (normalizeIndicator s o).created = true) ∧
    (o.modified = none → (normalizeIndicator s o).modified = "") ∧
    (∀ d, o.modified = some d → d.Valid →
      isTimestampFormat (normalizeIndicator s o).modified = true) := by
  refine ⟨fun h => ?_, fun d hd _ => ?_, fun h => ?_, fun d hd _ => ?_,
          fun h => ?_, fun d hd _ => ?_⟩
  · simp [normalizeIndicator, h]
  · simp [normalizeIndicator, hd, isTimestampFormat_strftime]
  · simp [normalizeIndicator, h]
  · simp [normalizeIndicator, hd, isTimestampFormat_strftime]
  · simp [normalizeIndicator, h]
  · simp [normalizeIndicator, hd, isTimestampFormat_strftime]

/-- Sample indicator without any optional timestamp attribute. -/
def bareIndicator : StixObj :=
  ⟨"indicator", "indicator--0004", some "[domain-name:value = example.com]",
   none, none, none, none, none, none⟩

/-- Witness for claim C8 on concrete objects with and without the
optional timestamp attributes. -/
theorem normalizer_timestamp_fields_witness :
    (normalizeIndicator "ColA" bareIndicator).first_seen = "N/A" ∧
    isTimestampFormat (normalizeIndicator "ColA" sampleIndicator).first_seen = true ∧
    (normalizeIndicator "ColA" bareIndicator).created = "" ∧
    isTimestampFormat (normalizeIndicator "ColA" sampleIndicator).created = true ∧
    (normalizeIndicator "ColA" bareIndicator).modified = "" ∧
    isTimestampFormat (normalizeIndicator "ColA" sampleIndicator).modified = true :=
  ⟨(normalizer_timestamp_fields "ColA" bareIndicator).1 rfl,
   (normalizer_timestamp_fields "ColA" sampleIndicator).2.1 sampleDate rfl
     (by simp [PyDateTime.Valid, sampleDate]),
   (normalizer_timestamp_fields "ColA" bareIndicator).2.2.1 rfl,
   (normalizer_timestamp_fields "ColA" sampleIndicator).2.2.2.1 sampleDate rfl
     (by simp [PyDateTime.Valid, sampleDate]),
   (normalizer_timestamp_fields "ColA" bareIndicator).2.2.2.2.1 rfl,
   (normalizer_timestamp_fields "ColA" sampleIndicator).2.2.2.2.2 sampleDate rfl
     (by simp [PyDateTime.Valid, sampleDate])⟩

/-- Claim C9: when the collection resolver signals not-found the fetcher
terminates immediately with the empty result and an untouched buffer;
and a per-item parse failure is skipped, the remaining items of the page
being processed exactly as if the failing item were not there. -/
theorem fetcher_failure_policy (api_root_url : Option String) (t : String)
    (listing : ListingResponse) (pages : List PageResponse) (buf : Buffer)
    (h : resolveCollectionId api_root_url listing t = none) :
    get_indicators api_root_url t listing pages buf = (buf, []) ∧
    ∀ (s : String) (b : Buffer) (rest : List PageElem),
      processItems s b (PageElem.malformed :: rest) = processItems s b rest := by
  refine ⟨?_, fun s b rest => rfl⟩
  rw [get_indicators]
  by_cases h1 : pyFalsy api_root_url || t.isEmpty
  · simp [h1]
  · simp [h1, h, pyFalsy]

/-- Witness for claim C9: a network failure at the listing request makes
the fetch return empty, and a malformed item ahead of a good one is
skipped without affecting the rest of the page. -/
theorem fetcher_failure_policy_witness :
    get_indicators (some "http://server-b/api") "ColB" ListingResponse.requestError
        [] none = (none, []) ∧
    processItems "ColA" (some []) [PageElem.malformed, PageElem.obj sampleIndicator] =
      processItems "ColA" (some []) [PageElem.obj sampleIndicator] :=
  ⟨(fetcher_failure_policy (some "http://server-b/api") "ColB"
      ListingResponse.requestError [] none rfl).1,
   (fetcher_failure_policy (some "http://server-b/api") "ColB"
      ListingResponse.requestError [] none rfl).2 "ColA" (some [])
     [PageElem.obj sampleIndicator]⟩
